import Mathlib

set_option linter.unusedVariables false
set_option maxRecDepth 40000

/-!
Shallow embedding of `src/js.c` from `bare-metal-javascript`: a bare-metal
host for the external MQuickJS engine.  The host-bridge functions
(`js_print`, `js_date_now`, `js_performance_now`, `js_gc`, `js_load`,
`js_setTimeout`, `js_clearTimeout`), the driver `main` and the `_sbrk`
stub are translated from the C source.  The engine itself (`mquickjs.h`)
and the UART driver (`uart.h`) are external to the repository; the few
engine entry points the host calls are modelled from the specification
and from the source's own commentary, and are marked as such.
-/

namespace BareMetalJS

/-- Tagged script value crossing the host bridge (`JSValue` of the engine
ABI): a discriminated union of the variants the host code observes.
`object` stands for a non-string value (object/array) whose engine
stringification is the carried text; `exceptionTag` is the special
`JS_EXCEPTION` marker value. -/
inductive JSValue where
  | undefined
  | boolean (b : Bool)
  | number (n : Int)
  | string (s : String)
  | object (repr : String)
  | exceptionTag
  deriving DecidableEq, Repr

/-- `JS_UNDEFINED` of the engine ABI. -/
def JS_UNDEFINED : JSValue := JSValue.undefined

/-- `JS_EXCEPTION` of the engine ABI: the marker value returned by a
throwing operation. -/
def JS_EXCEPTION : JSValue := JSValue.exceptionTag

/-- Two's-complement wrap of an integer to the signed 32-bit range,
modelling C `int32_t` conversion. -/
def toInt32 (n : Int) : Int := (n + 2 ^ 31) % 2 ^ 32 - 2 ^ 31

/-- `JS_NewInt32(ctx, n)`: a number value holding a 32-bit integer. -/
def JS_NewInt32 (n : Int) : JSValue := JSValue.number (toInt32 n)

/-- `JS_IsException(v)`: whether `v` is the exception marker. -/
def JS_IsException (v : JSValue) : Bool :=
  match v with
  | JSValue.exceptionTag => true
  | _ => false

/-- Observable state threaded through the host: the byte stream written to
the UART sink, the number of bytes carved out of the 64 KiB arena by the
engine on the host's behalf, and the context's pending-exception slot. -/
structure JSState where
  output : List Char
  arenaUsed : Nat
  exception : Option JSValue
  deriving DecidableEq, Repr

/-- `uart_putc(c)`: write one byte to the UART sink. -/
def uart_putc (c : Char) (st : JSState) : JSState :=
  { st with output := st.output ++ [c] }

/-- `uart_puts(s)`: write a C string to the UART sink. -/
def uart_puts (s : String) (st : JSState) : JSState :=
  { st with output := st.output ++ s.toList }

/-- Result of the engine's value-to-string conversion `JS_ToCString`:
`none` models a `NULL` return (conversion failed); `some (s, k)` models a
C string `s` together with the number `k` of bytes freshly allocated from
the arena to hold it (`k = 0` when the result is a borrowed reference
into an existing string value or fits the caller's inline
`JSCStringBuf`).  The conversion is engine code outside this repository,
so the host functions are parametrised over it. -/
def ConvOracle : Type := JSValue → Option (String × Nat)

/-- Modelled from the spec: the capacity of the caller-provided inline
`JSCStringBuf` used by `JS_ToCString` before it falls back to
`js_malloc`.  The exact engine-internal capacity is not visible in this
repository; it is fixed here at 32 bytes for concreteness. -/
def JSCStringBufSize : Nat := 32

/-- Modelled from the spec and the source's quoted engine commentary:
`JS_ToCString(ctx, v, &buf)` returns the content of a string value by
reference (no allocation); for any other value it builds the textual
representation, using the inline buffer when the text fits and otherwise
allocating `len + 1` bytes from the arena with `js_malloc`; it fails
(returns `NULL`) on the exception marker. -/
def JS_ToCString (cap : Nat) (v : JSValue) : Option (String × Nat) :=
  match v with
  | JSValue.string s => some (s, 0)
  | JSValue.undefined =>
      some ("undefined", if String.length "undefined" + 1 ≤ cap then 0 else String.length "undefined" + 1)
  | JSValue.boolean b =>
      let s := if b then "true" else "false"
      some (s, if s.length + 1 ≤ cap then 0 else s.length + 1)
  | JSValue.number n =>
      let s := toString n
      some (s, if s.length + 1 ≤ cap then 0 else s.length + 1)
  | JSValue.object r =>
      some (r, if r.length + 1 ≤ cap then 0 else r.length + 1)
  | JSValue.exceptionTag => none

/-- The conversion oracle used by this embedding's concrete runs:
`JS_ToCString` at the modelled inline-buffer capacity. -/
def stdConv : ConvOracle := JS_ToCString JSCStringBufSize

/-- One iteration of the `for (int i = 0; i < argc; i++)` loop body of
`js_print`: emit the separating space for every argument but the first,
convert the argument (the conversion may allocate from the arena), and
write the converted text when the conversion succeeded. -/
def printStep (conv : ConvOracle) (argv : Nat → JSValue) (st : JSState) (i : Nat) : JSState :=
  let st1 := if i ≠ 0 then uart_putc ' ' st else st
  match conv (argv i) with
  | some (s, k) => uart_puts s { st1 with arenaUsed := st1.arenaUsed + k }
  | none => st1

/-- `js_print(ctx, this_val, argc, argv)` from `src/js.c`: loop over the
`argc` argument slots with `printStep`, then write the trailing newline
and return `JS_UNDEFINED`.  No conversion buffer is ever released. -/
def js_print (conv : ConvOracle) (this_val : JSValue) (argc : Nat) (argv : Nat → JSValue)
    (st : JSState) : JSValue × JSState :=
  let st := (List.range argc).foldl (printStep conv argv) st
  (JS_UNDEFINED, uart_putc '\n' st)

/-- `js_date_now` from `src/js.c`: stubbed to `JS_NewInt32(ctx, 0)`. -/
def js_date_now (this_val : JSValue) (argc : Nat) (argv : Nat → JSValue)
    (st : JSState) : JSValue × JSState :=
  (JS_NewInt32 0, st)

/-- `js_performance_now` from `src/js.c`: stubbed to `JS_NewInt32(ctx, 0)`. -/
def js_performance_now (this_val : JSValue) (argc : Nat) (argv : Nat → JSValue)
    (st : JSState) : JSValue × JSState :=
  (JS_NewInt32 0, st)

/-- Modelled from the spec: `JS_GC(ctx)` runs an engine-internal
reclamation pass over arena-resident objects; it is engine code outside
this repository and is not observable at the level of this state, so it
is modelled as the identity on the host-visible state. -/
def JS_GC (st : JSState) : JSState := st

/-- `js_gc` from `src/js.c`: call `JS_GC(ctx)` and return `JS_UNDEFINED`. -/
def js_gc (this_val : JSValue) (argc : Nat) (argv : Nat → JSValue)
    (st : JSState) : JSValue × JSState :=
  (JS_UNDEFINED, JS_GC st)

/-- Modelled from the spec: `JS_ThrowInternalError(ctx, msg)` records the
message in the context's pending-exception slot and returns the
`JS_EXCEPTION` marker; it surfaces as a catchable script exception, not
a native crash, and does not touch the sink or the arena accounting. -/
def JS_ThrowInternalError (msg : String) (st : JSState) : JSValue × JSState :=
  (JS_EXCEPTION, { st with exception := some (JSValue.string msg) })

/-- `js_load` from `src/js.c`:
`return JS_ThrowInternalError(ctx, "load not implemented");`. -/
def js_load (this_val : JSValue) (argc : Nat) (argv : Nat → JSValue)
    (st : JSState) : JSValue × JSState :=
  JS_ThrowInternalError "load not implemented" st

/-- `js_setTimeout` from `src/js.c`: stubbed to `JS_NewInt32(ctx, 0)`. -/
def js_setTimeout (this_val : JSValue) (argc : Nat) (argv : Nat → JSValue)
    (st : JSState) : JSValue × JSState :=
  (JS_NewInt32 0, st)

/-- `js_clearTimeout` from `src/js.c`: returns `JS_UNDEFINED`. -/
def js_clearTimeout (this_val : JSValue) (argc : Nat) (argv : Nat → JSValue)
    (st : JSState) : JSValue × JSState :=
  (JS_UNDEFINED, st)

/-- `JS_MEMORY_SIZE` from `src/js.c`: `64 * 1024` bytes for the static
`js_memory` buffer. -/
def JS_MEMORY_SIZE : Nat := 64 * 1024

/-- The arena capacity `main` hands to `JS_NewContext`:
`sizeof(js_memory)`, i.e. the full static buffer. -/
def mainArenaCapacity : Nat := JS_MEMORY_SIZE

/-- `_sbrk(incr)` from `src/js.c`: always returns `(void *) -1`, so every
heap-growth request fails regardless of the increment. -/
def _sbrk (incr : Int) : Int := -1

/-- Modelled from the spec: `JS_GetException(ctx)` returns the pending
exception value (undefined when none is pending) and clears the slot. -/
def JS_GetException (st : JSState) : JSValue × JSState :=
  (st.exception.getD JS_UNDEFINED, { st with exception := none })

/-- Modelled from the spec: `JS_FreeContext(ctx)` releases the context's
claim on its arena. -/
def JS_FreeContext (st : JSState) : JSState :=
  { st with arenaUsed := 0, exception := none }

/-- `main` from `src/js.c`, parametrised over the two external engine
outcomes it branches on: whether `JS_NewContext` succeeded and the value
`JS_Eval` returned.  On creation failure it prints a message and returns
1.  On an exception result it prints `"JS Exception: "`, fetches and
converts the pending exception, prints the text when conversion
succeeded, prints a newline — and still falls through to return 0.  On a
normal result it converts it and prints `"Result: "`, the text and a
newline when conversion succeeded.  Either way it frees the context and
returns 0. -/
def main (ctxOk : Bool) (evalResult : JSValue) (st : JSState) : Nat × JSState :=
  if ctxOk = false then
    (1, uart_puts "Failed to create JS context\n" st)
  else
    let st :=
      if JS_IsException evalResult then
        let st := uart_puts "JS Exception: " st
        let (exn, st) := JS_GetException st
        let st :=
          match stdConv exn with
          | some (s, k) => uart_puts s { st with arenaUsed := st.arenaUsed + k }
          | none => st
        uart_putc '\n' st
      else
        match stdConv evalResult with
        | some (s, k) =>
            uart_putc '\n' (uart_puts s (uart_puts "Result: " { st with arenaUsed := st.arenaUsed + k }))
        | none => st
    (0, JS_FreeContext st)

/-- The initial host state: empty sink, empty arena, no pending
exception. -/
def st0 : JSState := { output := [], arenaUsed := 0, exception := none }

/-- The message constant of the embedded demo script `js_code`:
`var msg = "Hello from JS!";`. -/
def msg : String := "Hello from JS!"

/-- The string the demo script builds on iteration `i`:
`for (var j = 0; j < i; j++) { iteration_message += msg; }` followed by
`iteration_message += "\n";` — `i` copies of `msg` and then an embedded
newline. -/
def iterationMessage (i : Nat) : String :=
  ((List.range i).foldl (fun acc _ => acc ++ msg) "") ++ "\n"

/-- Evaluating the embedded demo script `js_code`: ten calls
`print(iteration_message)` for `i = 0 .. 9`, then
`print("Successful JavaScript!\n")`.  Each call reaches the host as
`js_print` with one string argument. -/
def runDemo (st : JSState) : JSState :=
  let st := (List.range 10).foldl
    (fun st i =>
      (js_print stdConv JS_UNDEFINED 1 (fun _ => JSValue.string (iterationMessage i)) st).2) st
  (js_print stdConv JS_UNDEFINED 1 (fun _ => JSValue.string "Successful JavaScript!\n") st).2

/-- The byte stream the demo script's `print` calls put on the UART sink,
starting from the initial state. -/
def demoOutput : List Char := (runDemo st0).output

/-- `i` repetitions of the demo message, with nothing appended. -/
def repMsg (i : Nat) : String :=
  (List.range i).foldl (fun acc _ => acc ++ msg) ""

/-- The byte stream the claim describes: for each `i` from 0 to 9 a line
of `i` repetitions of the message followed by one newline, then the final
line `"Successful JavaScript!"` with its newline.  This definition
follows the claim's words, to be compared with `demoOutput`. -/
def claimedDemoOutput : List Char :=
  (String.join ((List.range 10).map (fun i => repMsg i ++ "\n"))
    ++ "Successful JavaScript!\n").toList

/-- The byte stream the code actually produces: each of the ten lines
carries the script's own embedded newline and the newline `print`
appends, and so does the final line. -/
def actualDemoOutput : List Char :=
  (String.join ((List.range 10).map (fun i => repMsg i ++ "\n\n"))
    ++ "Successful JavaScript!\n\n").toList

/-- The bytes a single `js_print` argument slot contributes after its
separator: the converted text when the conversion succeeds, nothing when
it fails. -/
def convBytes (r : Option (String × Nat)) : List Char :=
  match r with
  | some (s, _) => s.toList
  | none => []

/-- The arena bytes a single conversion result allocated. -/
def convAlloc (r : Option (String × Nat)) : Nat :=
  match r with
  | some (_, k) => k
  | none => 0

/-- The bytes argument slot `i` of a `js_print` call puts on the sink:
the separating space for every slot but the first (written before the
conversion is attempted), then the converted text if any. -/
def emitArg (conv : ConvOracle) (argv : Nat → JSValue) (i : Nat) : List Char :=
  (if i ≠ 0 then [' '] else []) ++ convBytes (conv (argv i))

/-- The arena bytes the conversion of argument slot `i` allocates. -/
def allocArg (conv : ConvOracle) (argv : Nat → JSValue) (i : Nat) : Nat :=
  convAlloc (conv (argv i))

theorem printStep_eq (conv : ConvOracle) (argv : Nat → JSValue) (st : JSState) (i : Nat) :
    printStep conv argv st i =
      { st with
          output := st.output ++ emitArg conv argv i,
          arenaUsed := st.arenaUsed + allocArg conv argv i } := by
  unfold printStep emitArg allocArg convBytes convAlloc
  cases h : conv (argv i) with
  | none =>
      by_cases hi : i = 0 <;> simp [hi, uart_putc, uart_puts]
  | some p =>
      obtain ⟨s, k⟩ := p
      by_cases hi : i = 0 <;> simp [hi, uart_putc, uart_puts]

theorem printLoop_eq (conv : ConvOracle) (argv : Nat → JSValue) :
    ∀ (l : List Nat) (st : JSState),
      l.foldl (printStep conv argv) st =
        { st with
            output := st.output ++ l.flatMap (emitArg conv argv),
            arenaUsed := st.arenaUsed + (l.map (allocArg conv argv)).sum } := by
  intro l
  induction l with
  | nil => intro st; simp
  | cons i rest ih =>
      intro st
      simp only [List.foldl_cons, ih, printStep_eq, List.flatMap_cons, List.map_cons,
        List.sum_cons]
      simp [List.append_assoc, Nat.add_assoc]

/-- Closed form of `js_print`: it returns `JS_UNDEFINED`; the sink gains
each argument slot's separator-plus-text followed by one trailing
newline; the arena grows by exactly the bytes the conversions allocated
(nothing is ever released); the exception slot is untouched. -/
theorem js_print_eq (conv : ConvOracle) (this_val : JSValue) (argc : Nat)
    (argv : Nat → JSValue) (st : JSState) :
    js_print conv this_val argc argv st =
      (JS_UNDEFINED,
        { st with
            output := st.output ++ (List.range argc).flatMap (emitArg conv argv) ++ ['\n'],
            arenaUsed := st.arenaUsed + ((List.range argc).map (allocArg conv argv)).sum }) := by
  unfold js_print
  simp [printLoop_eq, uart_putc, List.append_assoc]

theorem intercalate_cons_flatMap {α : Type} (sep : List α) (x : List α) (xs : List (List α)) :
    List.intercalate sep (x :: xs) = x ++ xs.flatMap (fun y => sep ++ y) := by
  induction xs generalizing x with
  | nil => simp [List.intercalate, List.intersperse]
  | cons y ys ih =>
      rw [List.intercalate, List.intersperse_cons_cons, List.flatten]
      have := ih y
      rw [List.intercalate] at this
      simp [List.flatten, this, List.append_assoc]

theorem flatMap_range_sep (f : Nat → List Char) (n : Nat) :
    (List.range n).flatMap (fun i => (if i ≠ 0 then [' '] else []) ++ f i)
      = List.intercalate [' '] ((List.range n).map f) := by
  cases n with
  | zero => simp [List.intercalate, List.intersperse]
  | succ m =>
      rw [List.range_succ_eq_map]
      simp only [List.flatMap_cons, List.map_cons, List.flatMap_map, List.map_map]
      rw [intercalate_cons_flatMap, List.flatMap_map]
      simp [Function.comp]

/-- C5: calling `print` with zero arguments writes exactly one newline
byte to the I/O sink and nothing else — the state is otherwise unchanged
and the call returns `JS_UNDEFINED`. -/
theorem c5_print_no_args (conv : ConvOracle) (this_val : JSValue) (argv : Nat → JSValue)
    (st : JSState) :
    js_print conv this_val 0 argv st =
      (JS_UNDEFINED, { st with output := st.output ++ ['\n'] }) := by
  rw [js_print_eq]
  simp

/-- C4: for every `print` call with at least one argument whose string
conversions all succeed with texts `ss`, the bytes written to the I/O
sink are exactly the converted strings joined by a single space followed
by exactly one newline, and the call returns `JS_UNDEFINED`. -/
theorem c4_print_join (conv : ConvOracle) (this_val : JSValue) (argc : Nat)
    (argv : Nat → JSValue) (ss : List String) (st : JSState)
    (hn : 0 < argc) (hlen : ss.length = argc)
    (hconv : ∀ i, i < argc → ∃ k, conv (argv i) = some (ss.getD i "", k)) :
    (js_print conv this_val argc argv st).1 = JS_UNDEFINED ∧
    (js_print conv this_val argc argv st).2.output =
      st.output ++ List.intercalate [' '] (ss.map String.toList) ++ ['\n'] := by
  rw [js_print_eq]
  refine ⟨rfl, ?_⟩
  have hmain : (List.range argc).flatMap (emitArg conv argv)
      = List.intercalate [' '] (ss.map String.toList) := by
    have h1 : (List.range argc).flatMap (emitArg conv argv)
        = List.intercalate [' '] ((List.range argc).map (fun i => convBytes (conv (argv i)))) := by
      rw [← flatMap_range_sep (fun i => convBytes (conv (argv i))) argc]
      rfl
    rw [h1]
    congr 1
    apply List.ext_getElem
    · simp [hlen]
    · intro i h₁ h₂
      simp only [List.getElem_map, List.getElem_range]
      have hi : i < argc := by simpa using h₁
      obtain ⟨k, hk⟩ := hconv i hi
      have hilen : i < ss.length := by omega
      rw [hk]
      simp [convBytes, List.getD_eq_getElem ss "" hilen, List.getElem?_eq_getElem hilen]
  rw [hmain]

/-- C4 witness: `print("a", "b")` writes `a b\n`. -/
theorem c4_print_join_witness :
    (js_print stdConv JS_UNDEFINED 2
        (fun i => if i = 0 then JSValue.string "a" else JSValue.string "b") st0).1
      = JS_UNDEFINED ∧
    (js_print stdConv JS_UNDEFINED 2
        (fun i => if i = 0 then JSValue.string "a" else JSValue.string "b") st0).2.output =
      st0.output ++ List.intercalate [' '] (["a", "b"].map String.toList) ++ ['\n'] := by
  have h := c4_print_join stdConv JS_UNDEFINED 2
    (fun i => if i = 0 then JSValue.string "a" else JSValue.string "b") ["a", "b"] st0
    (by decide) (by decide)
    (by
      intro i hi
      refine ⟨0, ?_⟩
      match i, hi with
      | 0, _ => rfl
      | 1, _ => rfl)
  exact h

/-- C2 counterexample: a `print` call whose single argument is a
non-string value with a long stringification obtains an arena-allocated
conversion buffer and returns without releasing it — the arena usage
after the call is strictly larger than before, so the buffer was not
released before the call returned. -/
theorem c2_print_leak_counterexample :
    st0.arenaUsed <
      (js_print stdConv JS_UNDEFINED 1
          (fun _ => JSValue.object "{very long object stringification, longer than the inline buffer}")
          st0).2.arenaUsed := by
  decide

/-- C2 amended: `js_print` never releases anything: across every call
the arena grows by exactly the bytes the argument conversions allocated,
and in particular arena usage never decreases, so each call with an
allocating conversion permanently consumes arena memory (until
`JS_FreeContext`) and repeated such calls consume memory proportional to
the call count. -/
theorem c2_print_never_frees (conv : ConvOracle) (this_val : JSValue) (argc : Nat)
    (argv : Nat → JSValue) (st : JSState) :
    (js_print conv this_val argc argv st).2.arenaUsed =
      st.arenaUsed + ((List.range argc).map (allocArg conv argv)).sum ∧
    st.arenaUsed ≤ (js_print conv this_val argc argv st).2.arenaUsed := by
  rw [js_print_eq]
  exact ⟨rfl, Nat.le_add_right _ _⟩

/-- C10: in `js_print` the separating space for argument `i ≥ 1` is
written before that argument's conversion is attempted, so when the
conversion fails (`JS_ToCString` returns `NULL`) the space is still on
the sink while the argument contributes no further bytes
(`emitArg … i = [' ']`), no exception is raised (the exception slot is
untouched), the trailing newline is still written, and the call returns
`JS_UNDEFINED`. -/
theorem c10_space_before_conversion (conv : ConvOracle) (this_val : JSValue) (argc : Nat)
    (argv : Nat → JSValue) (st : JSState) (i : Nat)
    (h1 : 0 < i) (h2 : i < argc) (h3 : conv (argv i) = none) :
    (js_print conv this_val argc argv st).1 = JS_UNDEFINED ∧
    (js_print conv this_val argc argv st).2.exception = st.exception ∧
    emitArg conv argv i = [' '] ∧
    (js_print conv this_val argc argv st).2.output =
      st.output ++ (List.range argc).flatMap (emitArg conv argv) ++ ['\n'] := by
  refine ⟨by rw [js_print_eq], by rw [js_print_eq], ?_, by rw [js_print_eq]⟩
  have hne : i ≠ 0 := Nat.pos_iff_ne_zero.mp h1
  simp [emitArg, convBytes, h3, hne]

/-- The argument vector of the C10 witness call: slot 0 converts to
`"a"`, slot 1 is the exception marker, whose conversion fails. -/
def argvFail : Nat → JSValue :=
  fun j => if j = 0 then JSValue.string "a" else JSValue.exceptionTag

/-- C10 witness: `print` applied to a convertible first argument and a
second argument whose conversion fails. -/
theorem c10_space_before_conversion_witness :
    (js_print stdConv JS_UNDEFINED 2 argvFail st0).1 = JS_UNDEFINED ∧
    (js_print stdConv JS_UNDEFINED 2 argvFail st0).2.exception = st0.exception ∧
    emitArg stdConv argvFail 1 = [' '] ∧
    (js_print stdConv JS_UNDEFINED 2 argvFail st0).2.output =
      st0.output ++ (List.range 2).flatMap (emitArg stdConv argvFail) ++ ['\n'] :=
  c10_space_before_conversion stdConv JS_UNDEFINED 2 argvFail st0 1
    (by decide) (by decide) (by rfl)

/-- C3 counterexample: the demo run's byte stream is not the stream the
claim describes (one newline per line): the script embeds a newline in
every printed string and `print` appends another. -/
theorem c3_demo_output_counterexample : demoOutput ≠ claimedDemoOutput := by
  decide

/-- C3 amended: the demo run's byte stream is fully determined, and for
each `i` from 0 to 9 it carries `i` repetitions of `"Hello from JS!"`
followed by two newlines (the script's own embedded newline plus the one
`print` appends), followed by `"Successful JavaScript!"` with its
embedded newline plus `print`'s newline. -/
theorem c3_demo_output : demoOutput = actualDemoOutput := by
  decide

/-- C1 counterexample: when context creation succeeded and the
evaluation ended in an uncaught exception, `main` still returns exit
status 0 — the status of a successful run — so the exit status does not
report the exception as a failure. -/
theorem c1_exit_status_counterexample :
    JS_IsException JS_EXCEPTION = true ∧ (main true JS_EXCEPTION st0).1 = 0 := by
  decide

/-- C1 amended: `main` returns 1 exactly when context creation failed
and 0 in every other case; an evaluation that ends in an uncaught
exception is reported on the I/O sink (the output gains a
`"JS Exception: "` line) but the process still exits 0. -/
theorem c1_exit_status (r : JSValue) (st : JSState) :
    (main false r st).1 = 1 ∧
    (main true r st).1 = 0 ∧
    (JS_IsException r = true →
      ∃ t, (main true r st).2.output = st.output ++ ("JS Exception: ").toList ++ t) := by
  refine ⟨rfl, ?_, ?_⟩
  · unfold main
    simp only [Bool.true_eq_false, if_false]
  · intro hx
    unfold main
    simp only [Bool.true_eq_false, if_false, hx, if_true]
    cases hc : stdConv (st.exception.getD JS_UNDEFINED) with
    | none =>
        refine ⟨['\n'], ?_⟩
        simp [JS_GetException, hc, uart_puts, uart_putc, JS_FreeContext, List.append_assoc]
    | some p =>
        obtain ⟨s, k⟩ := p
        refine ⟨s.toList ++ ['\n'], ?_⟩
        simp [JS_GetException, hc, uart_puts, uart_putc, JS_FreeContext, List.append_assoc]

/-- C1 witness: concrete runs of the amended driver contract. -/
theorem c1_exit_status_witness :
    (main false JS_UNDEFINED st0).1 = 1 ∧
    (main true JS_UNDEFINED st0).1 = 0 ∧
    ∃ t, (main true JS_EXCEPTION st0).2.output =
      st0.output ++ ("JS Exception: ").toList ++ t :=
  ⟨(c1_exit_status JS_UNDEFINED st0).1,
   (c1_exit_status JS_UNDEFINED st0).2.1,
   (c1_exit_status JS_EXCEPTION st0).2.2 (by decide)⟩

/-- C6: for every argument vector and state, `js_load` returns the
exception marker (a catchable script exception, with the message
recorded in the context's pending-exception slot); it never returns a
normal value, never writes to the sink, and leaves the arena usage
unchanged. -/
theorem c6_load_always_throws (this_val : JSValue) (argc : Nat) (argv : Nat → JSValue)
    (st : JSState) :
    (js_load this_val argc argv st).1 = JS_EXCEPTION ∧
    JS_IsException (js_load this_val argc argv st).1 = true ∧
    (js_load this_val argc argv st).2.output = st.output ∧
    (js_load this_val argc argv st).2.arenaUsed = st.arenaUsed ∧
    (js_load this_val argc argv st).2.exception =
      some (JSValue.string "load not implemented") :=
  ⟨rfl, rfl, rfl, rfl, rfl⟩

/-- C7: no host bridge function reads an argument slot at index `≥ argc`:
replacing the argument vector by any other one that agrees on the slots
below `argc` leaves the result of every bridge function unchanged, so a
call with missing arguments returns normally without touching them. -/
theorem c7_no_read_beyond_argc (this_val : JSValue) (argc : Nat)
    (argv argv2 : Nat → JSValue) (st : JSState)
    (h : ∀ i, i < argc → argv i = argv2 i) :
    (∀ conv : ConvOracle,
      js_print conv this_val argc argv st = js_print conv this_val argc argv2 st) ∧
    js_setTimeout this_val argc argv st = js_setTimeout this_val argc argv2 st ∧
    js_clearTimeout this_val argc argv st = js_clearTimeout this_val argc argv2 st ∧
    js_date_now this_val argc argv st = js_date_now this_val argc argv2 st ∧
    js_performance_now this_val argc argv st = js_performance_now this_val argc argv2 st ∧
    js_gc this_val argc argv st = js_gc this_val argc argv2 st ∧
    js_load this_val argc argv st = js_load this_val argc argv2 st := by
  refine ⟨?_, rfl, rfl, rfl, rfl, rfl, rfl⟩
  intro conv
  rw [js_print_eq, js_print_eq]
  have hv : ∀ i ∈ List.range argc, argv i = argv2 i := by
    intro i hi
    exact h i (List.mem_range.mp hi)
  have hemit : (List.range argc).map (emitArg conv argv)
      = (List.range argc).map (emitArg conv argv2) := by
    apply List.map_congr_left
    intro i hi
    simp [emitArg, hv i hi]
  have halloc : (List.range argc).map (allocArg conv argv)
      = (List.range argc).map (allocArg conv argv2) := by
    apply List.map_congr_left
    intro i hi
    simp [allocArg, hv i hi]
  rw [List.flatMap, List.flatMap, hemit, halloc]

/-- The two argument vectors of the C7 witness: they agree on slot 0 and
differ everywhere above `argc = 1`. -/
def argvShort : Nat → JSValue := fun _ => JSValue.undefined

/-- See `argvShort`: same slot 0, junk in the unread slots. -/
def argvJunk : Nat → JSValue :=
  fun i => if i = 0 then JSValue.undefined else JSValue.number 5

/-- C7 witness: with `argc = 1`, junk beyond slot 0 changes no bridge
function's result. -/
theorem c7_no_read_beyond_argc_witness :
    js_print stdConv JS_UNDEFINED 1 argvShort st0 = js_print stdConv JS_UNDEFINED 1 argvJunk st0 ∧
    js_setTimeout JS_UNDEFINED 1 argvShort st0 = js_setTimeout JS_UNDEFINED 1 argvJunk st0 ∧
    js_clearTimeout JS_UNDEFINED 1 argvShort st0 = js_clearTimeout JS_UNDEFINED 1 argvJunk st0 ∧
    js_date_now JS_UNDEFINED 1 argvShort st0 = js_date_now JS_UNDEFINED 1 argvJunk st0 ∧
    js_performance_now JS_UNDEFINED 1 argvShort st0 = js_performance_now JS_UNDEFINED 1 argvJunk st0 ∧
    js_gc JS_UNDEFINED 1 argvShort st0 = js_gc JS_UNDEFINED 1 argvJunk st0 ∧
    js_load JS_UNDEFINED 1 argvShort st0 = js_load JS_UNDEFINED 1 argvJunk st0 := by
  have h := c7_no_read_beyond_argc JS_UNDEFINED 1 argvShort argvJunk st0
    (by
      intro i hi
      have : i = 0 := by omega
      subst this
      rfl)
  exact ⟨h.1 stdConv, h.2.1, h.2.2.1, h.2.2.2.1, h.2.2.2.2.1, h.2.2.2.2.2.1, h.2.2.2.2.2.2⟩

/-- C8: the heap-growth primitive `_sbrk` fails for every increment by
returning `(void *) -1`, and the arena `main` hands to context creation
is the single statically-sized 64 KiB buffer, so the engine can never
obtain memory from a general-purpose heap. -/
theorem c8_no_heap :
    (∀ incr : Int, _sbrk incr = -1) ∧
    JS_MEMORY_SIZE = 64 * 1024 ∧
    mainArenaCapacity = JS_MEMORY_SIZE :=
  ⟨fun _ => rfl, rfl, rfl⟩

/-- The inputs of one host-bridge call, used to state properties over
arbitrary call sequences. -/
structure BridgeCall where
  this_val : JSValue
  argc : Nat
  argv : Nat → JSValue
  st : JSState

/-- The numeric payload of a tagged value, when it is a number. -/
def numVal (v : JSValue) : Option Int :=
  match v with
  | JSValue.number n => some n
  | _ => none

/-- C9: `js_date_now` and `js_performance_now` return numeric values,
and across any sequence of calls the returned timestamps are monotonic
non-decreasing: for calls `i ≤ j` the value returned at `i` is `≤` the
value returned at `j` (both are the stubbed constant 0). -/
theorem c9_clock_monotonic (calls : Nat → BridgeCall) (i j : Nat) (hij : i ≤ j) :
    (∃ a b : Int,
      numVal (js_date_now (calls i).this_val (calls i).argc (calls i).argv (calls i).st).1
        = some a ∧
      numVal (js_date_now (calls j).this_val (calls j).argc (calls j).argv (calls j).st).1
        = some b ∧
      a ≤ b) ∧
    (∃ a b : Int,
      numVal (js_performance_now (calls i).this_val (calls i).argc (calls i).argv (calls i).st).1
        = some a ∧
      numVal (js_performance_now (calls j).this_val (calls j).argc (calls j).argv (calls j).st).1
        = some b ∧
      a ≤ b) := by
  constructor
  · exact ⟨0, 0, rfl, rfl, le_refl 0⟩
  · exact ⟨0, 0, rfl, rfl, le_refl 0⟩

/-- The call sequence of the C9 witness: every call has empty arguments
and the initial state. -/
def callsW : Nat → BridgeCall :=
  fun _ => ⟨JS_UNDEFINED, 0, fun _ => JS_UNDEFINED, st0⟩

/-- C9 witness: the clock contract at the concrete call pair 0 ≤ 1. -/
theorem c9_clock_monotonic_witness :
    (∃ a b : Int,
      numVal (js_date_now (callsW 0).this_val (callsW 0).argc (callsW 0).argv (callsW 0).st).1
        = some a ∧
      numVal (js_date_now (callsW 1).this_val (callsW 1).argc (callsW 1).argv (callsW 1).st).1
        = some b ∧
      a ≤ b) ∧
    (∃ a b : Int,
      numVal (js_performance_now (callsW 0).this_val (callsW 0).argc (callsW 0).argv (callsW 0).st).1
        = some a ∧
      numVal (js_performance_now (callsW 1).this_val (callsW 1).argc (callsW 1).argv (callsW 1).st).1
        = some b ∧
      a ≤ b) :=
  c9_clock_monotonic callsW 0 1 (by decide)

end BareMetalJS
